import Mathlib

/-!
Shallow embedding of the gemtype hotkey pipeline core:

* `src/core/gemini.py` — `GeminiClient.generate_response`, `GeminiClient.test_connection`;
* `src/core/hotkey.py` — `HotkeyManager.set_hotkey`, `_register`, `_unregister`;
* `src/gui/main_window.py` — `MainWindow.on_hotkey_triggered` (the pipeline run);
* `src/gemtype_single.py` — `main`'s trigger dispatch (one worker spawned per trigger).

The remote transport is modelled as an environment `env : String → StreamOutcome`
mapping the prompt of a request to the outcome of its streaming call, and the OS
keyboard-hook library as a deterministic oracle `ok : String → Bool` saying which
combo strings `keyboard.add_hotkey` accepts.
-/

/-- Python `str.isspace` characters relevant to `str.strip()` (ASCII part:
space, tab, newline, carriage return, vertical tab, form feed). -/
def pyIsSpace (c : Char) : Bool :=
  c == ' ' || c == '\t' || c == '\n' || c == '\r' || c == '\x0b' || c == '\x0c'

/-- Python `s.strip()`: drop leading and trailing whitespace. -/
def pyStrip (s : String) : String :=
  String.mk (((s.data.dropWhile pyIsSpace).reverse.dropWhile pyIsSpace).reverse)

/-- Python `s.startswith(pat)`. -/
def pyStartswith (s pat : String) : Bool :=
  pat.data.isPrefixOf s.data

/-- Whether `pat` occurs as a contiguous substring of the character list. -/
def containsAux : List Char → List Char → Bool
  | _, [] => true
  | [], _ :: _ => false
  | c :: rest, p :: ps => List.isPrefixOf (p :: ps) (c :: rest) || containsAux rest (p :: ps)

/-- Python `pat in s` (substring test). -/
def strContains (s pat : String) : Bool :=
  containsAux s.data pat.data

/-- Outcome of one streaming call made by `GeminiClient.generate_response`
(`src/core/gemini.py` lines 71-79): either the stream terminates cleanly after
yielding `chunks` (each chunk's `.text`), or an exception with message `msg`
is raised after `prior` chunks were already received (the code discards
`prior` on the exception path, so it only records what the loop had seen). -/
inductive StreamOutcome
  | ok (chunks : List String)
  | err (prior : List String) (msg : String)

/-- Python `"".join(chunks)`. -/
def concatChunks : List String → String
  | [] => ""
  | c :: cs => c ++ concatChunks cs

/-- The in-band failure value built at `src/core/gemini.py` line 87:
`f"❌ Error: {str(e)}"`. -/
def errorString (msg : String) : String := "❌ Error: " ++ msg

/-- `GeminiClient.generate_response(prompt)` (`src/core/gemini.py` lines 38-87),
for a client whose constructor succeeded (so `self._client` is set and the
re-init branch at lines 49-53 is skipped; the only `raise` in the class lives in
`_initialize_client`, which is then never reached — the function is total and
returns a `String` on every outcome).  The loop appends `chunk.text` only when
truthy (`if chunk.text:` line 80), joins, and strips; any exception is caught
and returned as `errorString`. -/
def generate_response (env : String → StreamOutcome) (prompt : String) : String :=
  match env prompt with
  | StreamOutcome.ok chunks =>
      pyStrip (concatChunks (chunks.filter (fun c => !(c == ""))))
  | StreamOutcome.err _ msg => errorString msg

/-- The test both callers apply to a `generate_response` result:
`response.startswith("❌")` (`src/core/gemini.py` line 99,
`src/gui/main_window.py` line 340). -/
def responseTreatedAsError (r : String) : Bool := pyStartswith r "❌"

/-- The canned prompt of `test_connection` (`src/core/gemini.py` line 98). -/
def testPrompt : String := "Say 'Hello'"

/-- `GeminiClient.test_connection` (`src/core/gemini.py` lines 89-102):
`return not self.generate_response("Say 'Hello'").startswith("❌")`.
(The surrounding try/except is dead for a constructed client, since
`generate_response` returns on every path.) -/
def test_connection (env : String → StreamOutcome) : Bool :=
  !(responseTreatedAsError (generate_response env testPrompt))

/-- State of `HotkeyManager` (`src/core/hotkey.py`): `_hotkey` and
`_is_registered` (the `_hook` handle is present exactly when registered, in the
model where `keyboard.remove_hotkey` does not throw). -/
structure HotkeyState where
  hotkey : String
  registered : Bool
  deriving DecidableEq

/-- `HotkeyManager._register` (`src/core/hotkey.py` lines 64-80): a no-op
returning `True` when already registered; otherwise asks the keyboard library
(the oracle `ok`) to accept `_hotkey`, recording success. -/
def hm_register (ok : String → Bool) (st : HotkeyState) : HotkeyState × Bool :=
  if st.registered then (st, true)
  else if ok st.hotkey then ({ st with registered := true }, true)
  else (st, false)

/-- `HotkeyManager._unregister` (`src/core/hotkey.py` lines 82-91), in the model
where `keyboard.remove_hotkey` succeeds: clears the registered flag. -/
def hm_unregister (st : HotkeyState) : HotkeyState :=
  { st with registered := false }

/-- `HotkeyManager.set_hotkey` (`src/core/hotkey.py` lines 33-62): reject empty
combos before touching anything; else unregister the current combo if
registered, install the new combo string, try to register it, and on failure
restore the old combo string and best-effort re-register it, returning `False`. -/
def set_hotkey (ok : String → Bool) (st : HotkeyState) (newHotkey : String) :
    HotkeyState × Bool :=
  if newHotkey = "" then (st, false)
  else
    let st1 := if st.registered then hm_unregister st else st
    let st2 := { st1 with hotkey := newHotkey }
    let r := hm_register ok st2
    if r.2 then (r.1, true)
    else
      let st4 := { r.1 with hotkey := st.hotkey }
      ((hm_register ok st4).1, false)

/-- The hard-coded fallback prompt of `MainWindow.on_hotkey_triggered`
(`src/gui/main_window.py` line 338). -/
def fallbackPrompt : String :=
  "send me this msg: copy your text to clipboard and try again."

/-- `prompt_text or fallback` (`src/gui/main_window.py` line 338): Python `or`
on strings picks the fallback exactly when `prompt_text` is empty. -/
def promptFor (t : String) : String := if t = "" then fallbackPrompt else t

/-- Faults that can interrupt one pipeline run, besides an in-band `❌` result:
`ctorFault` models `GeminiClient(...)` raising at `src/gui/main_window.py`
line 337 (e.g. unset api_key), `emitFault` models `pyautogui`/`pyperclip`
raising during the paste phase (lines 353-357); both are caught by the inner
`except` (lines 372-381), which restores the clipboard. -/
inductive RunFault
  | noFault
  | ctorFault
  | emitFault
  deriving DecidableEq

/-- Observable outcome of one run of `MainWindow.on_hotkey_triggered`:
the clipboard content when the handler returns, the prompt passed to
`generate_response` (if the call was reached), and whether the handler took the
early error `return` at `src/gui/main_window.py` lines 340-348. -/
structure RunResult where
  finalClipboard : String
  promptSent : Option String
  tookErrorReturn : Bool
  deriving DecidableEq

/-- `MainWindow.on_hotkey_triggered` (`src/gui/main_window.py` lines 309-384),
tracking the clipboard:  `original ← paste()`; clipboard cleared; synthetic
copy puts the selection `sel` in the clipboard; `prompt_text = paste().strip()`
(line 329); `response = generate_response(prompt_text or fallback)` (line 338).
If `response.startswith("❌")` the handler notifies and returns at line 348 —
with the clipboard still holding `sel`, since the restore at line 360 is only
on the success path and the one at line 381 only in the `except` handler.
Otherwise the clipboard transiently holds `response` and is then restored to
`original` (line 360); a fault raised in this region (or in the client
constructor) is caught and also restores (line 381). -/
def on_hotkey_triggered (env : String → StreamOutcome) (original sel : String)
    (fault : RunFault) : RunResult :=
  let prompt := promptFor (pyStrip sel)
  match fault with
  | RunFault.ctorFault =>
      { finalClipboard := original, promptSent := none, tookErrorReturn := false }
  | _ =>
      let response := generate_response env prompt
      if responseTreatedAsError response then
        { finalClipboard := sel, promptSent := some prompt, tookErrorReturn := true }
      else
        { finalClipboard := original, promptSent := some prompt, tookErrorReturn := false }

/-- Scheduler actions for the trigger-dispatch model: a hotkey trigger arrives,
or worker `i` (0-based, in spawn order) executes its next pipeline step. -/
inductive SchedAction
  | trigger
  | work (i : Nat)
  deriving DecidableEq

/-- Dispatch state: the program counter of every spawned worker (steps
0 = capture, 1 = generate, 2 = emit, 3 = restore; 4 = terminated), the number
of `generate` invocations so far, and the number of dropped triggers.  The
source keeps no drop counter anywhere, so `dropped` is only ever written by
`handleTrigger`, which never increments it. -/
structure DispatchState where
  runs : List Nat
  generateCalls : Nat
  dropped : Nat
  deriving DecidableEq

/-- Number of pipeline steps in one run. -/
def runSteps : Nat := 4

/-- The hotkey callback `lambda: threading.Thread(target=on_hotkey).start()`
(`src/gemtype_single.py` line 56): every trigger unconditionally spawns a fresh
worker; no run-in-progress flag is consulted and nothing is dropped or counted
(`MainWindow.on_hotkey_triggered` likewise has no guard). -/
def handleTrigger (st : DispatchState) : DispatchState :=
  { st with runs := st.runs ++ [0] }

/-- Worker `i` executes its next step (its `generate` call is step 1). -/
def stepRun (st : DispatchState) (i : Nat) : DispatchState :=
  match st.runs.get? i with
  | none => st
  | some pc =>
      if pc < runSteps then
        { st with
            runs := st.runs.set i (pc + 1),
            generateCalls := if pc = 1 then st.generateCalls + 1 else st.generateCalls }
      else st

/-- One scheduler action. -/
def dispatchStep (st : DispatchState) : SchedAction → DispatchState
  | SchedAction.trigger => handleTrigger st
  | SchedAction.work i => stepRun st i

/-- Run a whole schedule. -/
def dispatchExec (acts : List SchedAction) (st : DispatchState) : DispatchState :=
  acts.foldl dispatchStep st

/-- Start state: no workers, no generate calls, no drops. -/
def initDispatch : DispatchState := { runs := [], generateCalls := 0, dropped := 0 }

/-- Number of workers that have been spawned and not yet finished. -/
def activeRuns (st : DispatchState) : Nat :=
  (st.runs.filter (fun pc => decide (pc < runSteps))).length

theorem string_empty_append (s : String) : "" ++ s = s := by
  cases s with
  | mk l => rfl

theorem concat_filter (cs : List String) :
    concatChunks (cs.filter (fun c => !(c == ""))) = concatChunks cs := by
  induction cs with
  | nil => rfl
  | cons c rest ih =>
      by_cases h : c = ""
      · subst h
        simpa [List.filter, concatChunks, string_empty_append] using ih
      · have hb : (c == "") = false := beq_eq_false_iff_ne.mpr h
        simp [List.filter, hb, concatChunks, ih]

theorem marker_on_errorString (msg : String) :
    responseTreatedAsError (errorString msg) = true := by
  cases msg with
  | mk l => rfl

theorem promptSent_eq (env : String → StreamOutcome) (original sel : String)
    (fault : RunFault) (h : fault ≠ RunFault.ctorFault) :
    (on_hotkey_triggered env original sel fault).promptSent
      = some (promptFor (pyStrip sel)) := by
  cases fault with
  | ctorFault => exact absurd rfl h
  | noFault =>
      by_cases hc : responseTreatedAsError (generate_response env (promptFor (pyStrip sel))) <;>
        simp [on_hotkey_triggered, hc]
  | emitFault =>
      by_cases hc : responseTreatedAsError (generate_response env (promptFor (pyStrip sel))) <;>
        simp [on_hotkey_triggered, hc]

/-- Claim C1 (code bug): the clipboard is NOT restored on every outcome.  On a
generation failure the handler returns at `src/gui/main_window.py` line 348
with the clipboard still holding the captured selection (here `"bar"` instead
of the original `"foo"`), while the success, emit-fault and constructor-fault
paths do restore it. -/
theorem generation_failure_skips_restore :
    (on_hotkey_triggered (fun _ => StreamOutcome.err [] "429 rate limit") "foo" "bar"
        RunFault.noFault).finalClipboard = "bar"
    ∧ (on_hotkey_triggered (fun _ => StreamOutcome.ok ["Bonjour"]) "foo" "bar"
        RunFault.noFault).finalClipboard = "foo"
    ∧ (on_hotkey_triggered (fun _ => StreamOutcome.ok ["Bonjour"]) "foo" "bar"
        RunFault.emitFault).finalClipboard = "foo"
    ∧ (on_hotkey_triggered (fun _ => StreamOutcome.err [] "429 rate limit") "foo" "bar"
        RunFault.ctorFault).finalClipboard = "foo"
    ∧ ("bar" : String) ≠ "foo" := by
  decide

/-- Claim C2: when a registered combo A is rebound to a combo B that the
keyboard library rejects, `set_hotkey` restores the old combo string,
re-registers A, ends Registered with A, and returns `False`
(`src/core/hotkey.py` lines 47-62).  `hA` records that A is accepted by the
library (it was successfully registered before, and the oracle is
deterministic); `hB` that B's registration fails. -/
theorem set_hotkey_rollback (ok : String → Bool) (st : HotkeyState) (B : String)
    (hreg : st.registered = true) (hA : ok st.hotkey = true)
    (hB : ok B = false) (hne : B ≠ "") :
    set_hotkey ok st B = ({ hotkey := st.hotkey, registered := true }, false) := by
  cases st with
  | mk a r =>
      simp only [HotkeyState.registered] at hreg
      subst hreg
      simp [set_hotkey, hm_unregister, hm_register, hA, hB, hne]

/-- Witness for `set_hotkey_rollback` at a concrete registered state and a
concrete rejected combo. -/
theorem set_hotkey_rollback_witness :
    set_hotkey (fun s => s == "ctrl+alt+space") ⟨"ctrl+alt+space", true⟩ "badcombo"
      = (⟨"ctrl+alt+space", true⟩, false) :=
  set_hotkey_rollback (fun s => s == "ctrl+alt+space") ⟨"ctrl+alt+space", true⟩
    "badcombo" rfl (by decide) (by decide) (by decide)

/-- Claim C3 (code bug): with the source's unguarded dispatch (a fresh worker
per trigger, `src/gemtype_single.py` line 56, and no run-in-progress flag in
`MainWindow.on_hotkey_triggered` either), the schedule that fires a second
trigger after the first run's capture step leaves two runs simultaneously
active, and completing both runs performs two `generate` invocations with
nothing dropped or counted — the claimed single-invocation/drop policy fails. -/
theorem unguarded_triggers_overlap_and_double_generate :
    activeRuns (dispatchExec
      [SchedAction.trigger, SchedAction.work 0, SchedAction.trigger] initDispatch) = 2
    ∧ (dispatchExec
        [SchedAction.trigger, SchedAction.work 0, SchedAction.trigger,
         SchedAction.work 0, SchedAction.work 1, SchedAction.work 0,
         SchedAction.work 1, SchedAction.work 0, SchedAction.work 1,
         SchedAction.work 1] initDispatch).generateCalls = 2
    ∧ (dispatchExec
        [SchedAction.trigger, SchedAction.work 0, SchedAction.trigger,
         SchedAction.work 0, SchedAction.work 1, SchedAction.work 0,
         SchedAction.work 1, SchedAction.work 0, SchedAction.work 1,
         SchedAction.work 1] initDispatch).dropped = 0 := by
  decide

/-- Claim C4 counterexample: a stream that terminates cleanly with zero chunks
makes `generate_response` return `""`, which carries no `❌` marker — a
successful empty result, refuting the claimed `EmptyResponseError` failure. -/
theorem empty_stream_empty_success_counterexample :
    generate_response (fun _ => StreamOutcome.ok []) "any" = ""
    ∧ responseTreatedAsError (generate_response (fun _ => StreamOutcome.ok []) "any")
        = false := by
  decide

/-- Claim C4 (amended): for every generate call whose stream terminates with
zero chunks and no transport error, the result is the empty string with no
error marker — a successful empty result, not a crash and not any
`EmptyResponseError` (no such classification exists in the code). -/
theorem empty_stream_yields_empty_string (env : String → StreamOutcome)
    (prompt : String) (h : env prompt = StreamOutcome.ok []) :
    generate_response env prompt = ""
    ∧ responseTreatedAsError (generate_response env prompt) = false := by
  unfold generate_response
  rw [h]
  exact ⟨rfl, rfl⟩

/-- Witness for `empty_stream_yields_empty_string` at a concrete environment. -/
theorem empty_stream_yields_empty_string_witness :
    generate_response (fun _ => StreamOutcome.ok []) "q" = ""
    ∧ responseTreatedAsError (generate_response (fun _ => StreamOutcome.ok []) "q")
        = false :=
  empty_stream_yields_empty_string (fun _ => StreamOutcome.ok []) "q" rfl

/-- Claim C5 counterexample: a transport failure with raw message
`"conn reset"` is returned verbatim as `"❌ Error: conn reset"`; none of the
five claimed classification kinds appears anywhere in the returned failure —
the raw exception text is returned unclassified. -/
theorem failure_unclassified_counterexample :
    generate_response (fun _ => StreamOutcome.err [] "conn reset") "p"
      = "❌ Error: conn reset"
    ∧ strContains (generate_response (fun _ => StreamOutcome.err [] "conn reset") "p")
        "AuthError" = false
    ∧ strContains (generate_response (fun _ => StreamOutcome.err [] "conn reset") "p")
        "NetworkError" = false
    ∧ strContains (generate_response (fun _ => StreamOutcome.err [] "conn reset") "p")
        "RateLimitError" = false
    ∧ strContains (generate_response (fun _ => StreamOutcome.err [] "conn reset") "p")
        "EmptyResponseError" = false
    ∧ strContains (generate_response (fun _ => StreamOutcome.err [] "conn reset") "p")
        "UnknownError" = false := by
  decide

/-- Claim C5 (amended): every failing generate call catches the raw exception
(never rethrowing it) and returns the single uniform in-band string
`"❌ Error: " ++ rawMessage`; no classification drawn from
{AuthError, NetworkError, RateLimitError, EmptyResponseError, UnknownError}
is attached (`src/core/gemini.py` lines 85-87). -/
theorem failure_uniform_string (env : String → StreamOutcome) (prompt : String)
    (prior : List String) (msg : String)
    (h : env prompt = StreamOutcome.err prior msg) :
    generate_response env prompt = "❌ Error: " ++ msg
    ∧ responseTreatedAsError (generate_response env prompt) = true := by
  unfold generate_response
  rw [h]
  exact ⟨rfl, marker_on_errorString msg⟩

/-- Witness for `failure_uniform_string` at a concrete failing environment. -/
theorem failure_uniform_string_witness :
    generate_response (fun _ => StreamOutcome.err [] "boom") "p" = "❌ Error: " ++ "boom"
    ∧ responseTreatedAsError (generate_response (fun _ => StreamOutcome.err [] "boom") "p")
        = true :=
  failure_uniform_string (fun _ => StreamOutcome.err [] "boom") "p" [] "boom" rfl

/-- Claim C6: on a trigger that reaches the generate call (any fault other than
the client constructor raising), the prompt passed to `generate_response` is
the captured text `pyStrip sel` when non-empty, else the hard-coded fallback
prompt (`src/gui/main_window.py` lines 329-338). -/
theorem prompt_is_selection_or_fallback (env : String → StreamOutcome)
    (original sel : String) (fault : RunFault) (h : fault ≠ RunFault.ctorFault) :
    (pyStrip sel ≠ "" →
      (on_hotkey_triggered env original sel fault).promptSent = some (pyStrip sel))
    ∧ (pyStrip sel = "" →
      (on_hotkey_triggered env original sel fault).promptSent = some fallbackPrompt) := by
  constructor
  · intro ht
    rw [promptSent_eq env original sel fault h]
    simp [promptFor, ht]
  · intro ht
    rw [promptSent_eq env original sel fault h]
    simp [promptFor, ht]

/-- Witness for `prompt_is_selection_or_fallback`: a non-empty selection with
surrounding whitespace is passed through stripped. -/
theorem prompt_is_selection_or_fallback_witness :
    (on_hotkey_triggered (fun _ => StreamOutcome.ok ["hi"]) "orig" " hello "
        RunFault.noFault).promptSent = some (pyStrip " hello ") :=
  (prompt_is_selection_or_fallback (fun _ => StreamOutcome.ok ["hi"]) "orig" " hello "
    RunFault.noFault (by decide)).1 (by decide)

/-- Claim C7 counterexample: on a stream with zero chunks, `generate_response`
on the canned prompt returns the empty string, yet `test_connection` returns
`true` — refuting "true iff the result is a Success whose text is non-empty". -/
theorem test_connection_true_on_empty_counterexample :
    test_connection (fun _ => StreamOutcome.ok []) = true
    ∧ generate_response (fun _ => StreamOutcome.ok []) testPrompt = "" := by
  decide

/-- Claim C7 (amended): `test_connection` calls `generate_response` with the
canned prompt `"Say 'Hello'"` and returns true iff the returned string does not
start with the `"❌"` failure marker (`src/core/gemini.py` lines 96-99); in
particular an empty successful response also yields true. -/
theorem test_connection_iff_no_marker (env : String → StreamOutcome) :
    test_connection env = true
      ↔ pyStartswith (generate_response env testPrompt) "❌" = false := by
  unfold test_connection responseTreatedAsError
  cases hb : pyStartswith (generate_response env testPrompt) "❌" <;> simp [hb]

/-- Claim C8: a stream that terminates cleanly after chunks `cs` makes
`generate_response` return the concatenation of the chunks in arrival order
with leading and trailing whitespace stripped (`src/core/gemini.py` lines
77-83; the `if chunk.text:` filter drops only empty chunks, which contribute
nothing to the concatenation). -/
theorem generate_concats_and_strips (env : String → StreamOutcome)
    (prompt : String) (cs : List String) (h : env prompt = StreamOutcome.ok cs) :
    generate_response env prompt = pyStrip (concatChunks cs) := by
  unfold generate_response
  rw [h]
  show pyStrip (concatChunks (cs.filter (fun c => !(c == "")))) = pyStrip (concatChunks cs)
  rw [concat_filter]

/-- Witness for `generate_concats_and_strips` on the chunks of the spec's
end-to-end scenario plus a trailing whitespace chunk. -/
theorem generate_concats_and_strips_witness :
    generate_response (fun _ => StreamOutcome.ok ["Bon", "jour", "  "]) "p"
      = pyStrip (concatChunks ["Bon", "jour", "  "]) :=
  generate_concats_and_strips (fun _ => StreamOutcome.ok ["Bon", "jour", "  "]) "p"
    ["Bon", "jour", "  "] rfl

/-- Claim C10: `generate_response` of a constructed client is total (the model
returns a `String` on every outcome — nothing is rethrown); every transport
failure is returned in-band with the `"❌"` marker; `test_connection` decides
success solely by that marker; and the pipeline takes its error `return`
exactly when the result carries the marker — so a legitimate completion whose
stripped text begins with `"❌"` is treated as a failure by both callers. -/
theorem errors_in_band_marker_dispatch (env : String → StreamOutcome)
    (prompt original sel : String) :
    (∀ prior msg, env prompt = StreamOutcome.err prior msg →
        generate_response env prompt = "❌ Error: " ++ msg
        ∧ responseTreatedAsError (generate_response env prompt) = true)
    ∧ test_connection env = !(responseTreatedAsError (generate_response env testPrompt))
    ∧ (on_hotkey_triggered env original sel RunFault.noFault).tookErrorReturn
        = responseTreatedAsError (generate_response env (promptFor (pyStrip sel))) := by
  refine ⟨?_, rfl, ?_⟩
  · intro prior msg h
    unfold generate_response
    rw [h]
    exact ⟨rfl, marker_on_errorString msg⟩
  · by_cases hc : responseTreatedAsError (generate_response env (promptFor (pyStrip sel))) <;>
      simp [on_hotkey_triggered, hc]

/-- Witness for `errors_in_band_marker_dispatch`: a concrete transport failure
is returned in-band with the marker, and a clean-stream completion whose text
begins with `"❌"` makes the pipeline take the error return. -/
theorem errors_in_band_marker_dispatch_witness :
    (generate_response (fun _ => StreamOutcome.err [] "boom2") "p" = "❌ Error: " ++ "boom2"
      ∧ responseTreatedAsError (generate_response (fun _ => StreamOutcome.err [] "boom2") "p")
          = true)
    ∧ (on_hotkey_triggered (fun _ => StreamOutcome.ok ["❌ legit completion"]) "foo" "sel"
        RunFault.noFault).tookErrorReturn = true :=
  ⟨(errors_in_band_marker_dispatch (fun _ => StreamOutcome.err [] "boom2") "p" "o" "s").1
      [] "boom2" rfl,
   by
    rw [(errors_in_band_marker_dispatch (fun _ => StreamOutcome.ok ["❌ legit completion"])
      (promptFor (pyStrip "sel")) "foo" "sel").2.2]
    decide⟩

/-- Claim C9: for every subsystem state, `set_hotkey` with the empty combo
string returns `False` before any unregister step: the registration state and
the current hotkey are both unchanged (`src/core/hotkey.py` lines 43-45). -/
theorem set_hotkey_empty_rejected (ok : String → Bool) (st : HotkeyState) :
    set_hotkey ok st "" = (st, false) := by
  simp [set_hotkey]
